import Mathlib

/-!
Verification of the schema-driven CLI argument synthesizer in
`llama_cpp/server/__main__.py`.

The development shallowly embeds the Python module's type-annotation
introspection (`get_base_type`, `contains_list_type`), boolean coercion
(`parse_bool_arg`), the argparse specification emitted for each schema
field and each `uvicorn.run` launch parameter, the post-parse splitting
of `vars(args)` into settings constructor overrides and uvicorn
arguments, and the HOST/PORT environment fallback applied to the final
launch host and port.
-/

/-- Concrete scalar (non-generic) Python types as they appear in
annotations: `str`, `int`, `bool`, `float`, `type(None)` (the absent
marker inside `Union`/`Optional`), and any other plain class, identified
by name. A plain class has no `__origin__` attribute. -/
inductive Scalar where
  | str
  | int
  | bool
  | float
  | noneType
  | other (name : String)
deriving DecidableEq, Repr

/-- A literal value usable inside `typing.Literal[...]`: a string, an
integer, a boolean, or `None`. Literal values are plain values, so they
have no `__origin__` attribute. -/
inductive LitVal where
  | s (v : String)
  | i (v : Int)
  | b (v : Bool)
  | noneV
deriving DecidableEq, Repr

/-- Model of `type(v)` for a literal value `v`. -/
def LitVal.ty : LitVal → Scalar
  | .s _ => .str
  | .i _ => .int
  | .b _ => .bool
  | .noneV => .noneType

/-- Python type expressions as the module pattern-matches on them via
`getattr(annotation, '__origin__', None)`:
* `plain t` — a bare class, `__origin__` is `None`;
* `lit v vs` — `Literal[v, vs...]` (`typing.Literal` always carries at
  least one argument), `__origin__ is Literal`, `__args__` are values;
* `union args` — `Union[args...]` (covering `Optional[X]`, which is
  `Union[X, None]` with the `NoneType` member modelled as
  `plain .noneType`), `__origin__ is Union`;
* `seq inner` — `list[inner]` / `List[inner]`, `__origin__ is list`. -/
inductive TypeExpr where
  | plain (t : Scalar)
  | lit (v : LitVal) (vs : List LitVal)
  | union (args : List TypeExpr)
  | seq (inner : TypeExpr)

/-- The identity test `arg is not type(None)` used to build
`non_optional_args`: false exactly on the `NoneType` class. -/
def is_not_none_type : TypeExpr → Bool
  | .plain .noneType => false
  | _ => true

/-- Value of `contains_list_type(v)` for a literal value `v`:
`getattr(v, '__origin__', None)` is `None`, so the call returns
`False`. -/
def contains_list_type_of_lit_val : Bool := false

mutual

/-- Model of `get_base_type(annotation)` from `__main__.py`.

* `Literal` → `type(annotation.__args__[0])`;
* `Union` → filter out `type(None)` and recurse into the first survivor;
  when no argument survives the function falls off the end of the
  `if`/`elif` chain and returns Python `None` (modelled `Option.none`);
* `list`/`List` → recurse into `annotation.__args__[0]`;
* otherwise → return the annotation unchanged.

The returned Python value is a type or `None`, hence `Option TypeExpr`. -/
def get_base_type : TypeExpr → Option TypeExpr
  | .lit v _ => some (.plain v.ty)
  | .union args => get_base_type_first_non_optional args
  | .seq inner => get_base_type inner
  | .plain t => some (.plain t)

/-- Model of the `Union` branch body: `non_optional_args = [arg for arg
in annotation.__args__ if arg is not type(None)]; if non_optional_args:
return get_base_type(non_optional_args[0])` — and implicitly `return
None` when the filtered list is empty. Recursing into the first element
of the filtered list is the same as skipping `type(None)` entries until
the first survivor; the equivalence with the literal filter-then-head
form is proved in `get_base_type_union_filter` below. -/
def get_base_type_first_non_optional : List TypeExpr → Option TypeExpr
  | [] => none
  | a :: rest =>
      if is_not_none_type a then get_base_type a
      else get_base_type_first_non_optional rest

end

mutual

/-- Model of `contains_list_type(annotation)` from `__main__.py`.

* origin `list`/`List` → `True` (the inner type is not inspected);
* origin `Literal` or `Union` → `any(contains_list_type(arg) for arg in
  annotation.__args__)`; for `Literal` the arguments are plain values,
  which have no `__origin__`, so every disjunct is `False`;
* otherwise → `False`. -/
def contains_list_type : TypeExpr → Bool
  | .seq _ => true
  | .union args => any_contains_list_type args
  | .lit v vs => (v :: vs).any (fun _ => contains_list_type_of_lit_val)
  | .plain _ => false

/-- Model of `any(contains_list_type(arg) for arg in __args__)` over the
union alternatives, with Python's short-circuit `or`. -/
def any_contains_list_type : List TypeExpr → Bool
  | [] => false
  | a :: rest => contains_list_type a || any_contains_list_type rest

end

/-- Model of `s.lower()`, character by character. -/
def py_lower (s : String) : String := ⟨s.data.map Char.toLower⟩

/-- Model of `s.strip()`: remove leading and trailing whitespace. -/
def py_strip (s : String) : String :=
  ⟨((s.data.dropWhile Char.isWhitespace).reverse.dropWhile
      Char.isWhitespace).reverse⟩

/-- Character-list core of `s.startswith(pat)`: the first argument is
the pattern, the second the text. -/
def chars_lead : List Char → List Char → Bool
  | [], _ => true
  | _ :: _, [] => false
  | p :: ps, c :: cs => p == c && chars_lead ps cs

/-- Model of `s.startswith(pat)`. -/
def py_startswith (s pat : String) : Bool := chars_lead pat.data s.data

/-- Model of the slice `s[n:]` (character indexing; dest names here are
ASCII). -/
def py_drop (s : String) (n : Nat) : String := ⟨s.data.drop n⟩

/-- Value of a nonempty all-digit character run, `none` otherwise. -/
def nat_of_digits : List Char → Option Nat
  | [] => none
  | ds =>
      if ds.all Char.isDigit then
        some (ds.foldl (fun a c => a * 10 + (c.toNat - 48)) 0)
      else none

/-- Model of Python `int(s)` on text: surrounding whitespace is
ignored, an optional sign precedes a nonempty digit run, anything else
raises `ValueError` (modelled `none`). -/
def py_int_of_string (s : String) : Option Int :=
  match (py_strip s).data with
  | '-' :: rest => (nat_of_digits rest).map (fun n => -(n : Int))
  | '+' :: rest => (nat_of_digits rest).map (fun n => (n : Int))
  | cs => (nat_of_digits cs).map (fun n => (n : Int))

/-- Input to `parse_bool_arg`: a text string, or a byte string carried
here together with its UTF-8 decoding (the `arg.decode('utf-8')`
result). -/
inductive BoolArg where
  | ofStr (s : String)
  | ofBytes (decoded : String)
deriving DecidableEq, Repr

/-- The text the function operates on after the `isinstance(arg, bytes)`
decode step; `str(arg)` on a string is the identity. -/
def BoolArg.text : BoolArg → String
  | .ofStr s => s
  | .ofBytes decoded => decoded

/-- The accepted truthy vocabulary `true_values`. -/
def true_values : List String := ["1", "on", "t", "true", "y", "yes"]

/-- The accepted falsy vocabulary `false_values`. -/
def false_values : List String := ["0", "off", "f", "false", "n", "no"]

/-- Outcome of `parse_bool_arg`: a returned boolean, or the raised
`ValueError(f'Invalid boolean argument: ...')` carrying the offending
argument. -/
inductive BoolParse where
  | ok (b : Bool)
  | invalid (arg : String)
deriving DecidableEq, Repr

/-- Model of `parse_bool_arg(arg)`: decode bytes, normalize with
`str(arg).lower().strip()`, return `True`/`False` on membership in the
accepted vocabularies, and otherwise `raise ValueError(...)` carrying
the (decoded) argument. -/
def parse_bool_arg (arg : BoolArg) : BoolParse :=
  let arg := arg.text
  let arg_str := py_strip (py_lower arg)
  if arg_str ∈ true_values then .ok true
  else if arg_str ∈ false_values then .ok false
  else .invalid arg

/-- Runtime Python values as far as this module distinguishes them:
strings, integers, booleans, `None`, and anything else identified by its
`repr` rendering. -/
inductive PyVal where
  | vstr (s : String)
  | vint (n : Int)
  | vbool (b : Bool)
  | vnone
  | vother (rendering : String)
deriving DecidableEq, Repr

/-- Model of `str(v)` as used by f-string interpolation. -/
def py_str : PyVal → String
  | .vstr s => s
  | .vint n => toString n
  | .vbool b => if b then "True" else "False"
  | .vnone => "None"
  | .vother rendering => rendering

/-- Model of `repr(v)` for the values above (string escaping inside the
quotes is not modelled; the module only feeds `repr` simple defaults). -/
def py_repr : PyVal → String
  | .vstr s => "'" ++ s ++ "'"
  | .vint n => toString n
  | .vbool b => if b then "True" else "False"
  | .vnone => "None"
  | .vother rendering => rendering

/-- Model of Python `int(v)`: identity on ints, decimal parsing on
strings (the module's PORT values), `True`/`False` to 1/0, and failure
(`TypeError`/`ValueError`, modelled `none`) otherwise. -/
def py_int : PyVal → Option Int
  | .vint n => some n
  | .vstr s => py_int_of_string s
  | .vbool b => some (if b then 1 else 0)
  | .vnone => none
  | .vother _ => none

/-- One pydantic field of `Settings` as the loop reads it: `annotation`
(`none` models a `None` annotation), `default` (`none` models a `None`
default), `description`. -/
structure FieldInfo where
  annotation : Option TypeExpr
  default : Option PyVal
  description : Option String

/-- The `type=` callable passed to `parser.add_argument`: either the
boolean coercer `parse_bool_arg`, or a Python type object / `None`
(`pyType none` models `type=None`, under which argparse keeps the raw
token string). -/
inductive ArgTransform where
  | boolCoercer
  | pyType (t : Option TypeExpr)

/-- One emitted `parser.add_argument` call for a `Settings` field:
`flag` is the option string, `dest` the destination name, `nargs` is
`some "*"` for zero-or-more tokens and `none` (argparse default) for
exactly one token, `transform` the `type=` callable, `help` the help
text. -/
structure ArgSpec where
  flag : String
  dest : String
  nargs : Option String
  transform : ArgTransform
  help : Option String

/-- Help-text assembly: `description = field.description;
if field.default is not None and description is not None: description +=
f" (default: ...)"`. -/
def field_help (field : FieldInfo) : Option String :=
  match field.default, field.description with
  | some d, some desc => some (desc ++ " (default: " ++ py_str d ++ ")")
  | _, _ => field.description

/-- Model of `base_type = get_base_type(field.annotation) if
field.annotation is not None else str`. -/
def field_base_type (field : FieldInfo) : Option TypeExpr :=
  match field.annotation with
  | some ann => get_base_type ann
  | none => some (.plain .str)

/-- Model of `list_type = contains_list_type(field.annotation)`; when
the annotation is `None` it has no `__origin__`, so the call returns
`False`. -/
def contains_list_type_opt : Option TypeExpr → Bool
  | some ann => contains_list_type ann
  | none => false

/-- The identity tests `base_type is bool` / `base_type is not bool`:
true exactly on the `bool` class. -/
def is_bool_base : Option TypeExpr → Bool
  | some (.plain .bool) => true
  | _ => false

/-- Model of f-string interpolation `f"..."` of an optional string:
Python renders `None` as the text `None`. -/
def py_fstr_opt : Option String → String
  | some s => s
  | none => "None"

/-- The body of the `Settings.model_fields` loop: exactly one of the two
`parser.add_argument` calls runs per field. Non-bool base type:
`nargs="*" if list_type else None`, `type=base_type`, `help=description`.
Bool base type: no `nargs` (exactly one token), `type=parse_bool_arg`,
`help=f"{description}"`. -/
def compile_field (name : String) (field : FieldInfo) : ArgSpec :=
  let description := field_help field
  let base_type := field_base_type field
  let list_type := contains_list_type_opt field.annotation
  if is_bool_base base_type then
    { flag := "--" ++ name
      dest := name
      nargs := none
      transform := .boolCoercer
      help := some (py_fstr_opt description) }
  else
    { flag := "--" ++ name
      dest := name
      nargs := if list_type then some "*" else none
      transform := .pyType base_type
      help := description }

/-- The whole `Settings.model_fields` loop, in declaration order. -/
def compile_schema (fields : List (String × FieldInfo)) : List ArgSpec :=
  fields.map fun nf => compile_field nf.1 nf.2

/-- One parameter of `uvicorn.run` as `inspect.signature` reports it:
`annotation` (`none` models `inspect.Parameter.empty`) and `default`
(`none` models `inspect.Parameter.empty`; a real `None` default is
`some .vnone`). -/
structure LaunchParam where
  name : String
  annotation : Option TypeExpr
  default : Option PyVal

/-- Model of `param_type = param.annotation if param.annotation !=
inspect.Parameter.empty else str`. -/
def launch_param_type (p : LaunchParam) : TypeExpr :=
  match p.annotation with
  | some t => t
  | none => .plain .str

/-- Model of `param_default = param.default if param.default !=
inspect.Parameter.empty else None`. -/
def launch_param_default (p : LaunchParam) : PyVal :=
  match p.default with
  | some v => v
  | none => .vnone

/-- One emitted `parser.add_argument` call for a `uvicorn.run`
parameter: flag string, `type=` object (used directly, no recursive
resolution), `default=`, and help text. No `nargs` is passed, so the
flag takes exactly one token. -/
structure UvArgSpec where
  flag : String
  pytype : TypeExpr
  default : PyVal
  help : String

/-- The body of the uvicorn parameter loop:
`parser.add_argument(f"--uvicorn-{param_name}", type=param_type,
default=param_default, help=f"Uvicorn setting for {param_name}
(default: {repr(param_default).replace('%', '%%')})")`. -/
def compile_launch_param (p : LaunchParam) : UvArgSpec :=
  { flag := "--uvicorn-" ++ p.name
    pytype := launch_param_type p
    default := launch_param_default p
    help := "Uvicorn setting for " ++ p.name ++ " (default: "
      ++ (py_repr (launch_param_default p)).replace "%" "%%" ++ ")" }

/-- The whole uvicorn parameter loop: every parameter is compiled in
order, except that `if param_name == "app": continue` skips the
implicit target parameter. -/
def compile_launch_params (params : List LaunchParam) : List UvArgSpec :=
  params.filterMap fun p =>
    if p.name = "app" then none else some (compile_launch_param p)

/-- Model of the settings override comprehension
`{k: v for k, v in vars(args).items() if v is not None and not
k.startswith("uvicorn_")}`. The parsed set maps argparse dest names
(flag names with `-` rewritten to `_`) to values; `none` models the
Python `None` an unsupplied settings flag leaves behind. -/
def settings_overrides (argvars : List (String × Option PyVal)) :
    List (String × PyVal) :=
  argvars.filterMap fun kv =>
    match kv.2 with
    | some v =>
        if py_startswith kv.1 "uvicorn_" then none else some (kv.1, v)
    | none => none

/-- Model of the uvicorn argument comprehension
`{k[8:]: v for k, v in vars(args).items() if k.startswith("uvicorn_")
and v is not None}`; `k[8:]` strips the 8-character dest token
`uvicorn_`. -/
def uvicorn_args_of (argvars : List (String × Option PyVal)) :
    List (String × PyVal) :=
  argvars.filterMap fun kv =>
    match kv.2 with
    | some v =>
        if py_startswith kv.1 "uvicorn_" then some (py_drop kv.1 8, v)
        else none
    | none => none

/-- Model of `os.getenv(name, default)` against an environment `env`:
the variable's string value when set, the given default otherwise. -/
def os_getenv_d (env : String → Option String) (name : String)
    (dflt : PyVal) : PyVal :=
  match env name with
  | some v => .vstr v
  | none => dflt

/-- Model of `d.get(k, default)` on a string-keyed dict. -/
def dict_get (d : List (String × PyVal)) (k : String) (dflt : PyVal) :
    PyVal :=
  match d.lookup k with
  | some v => v
  | none => dflt

/-- Model of `uvicorn_args['host'] = os.getenv("HOST",
uvicorn_args.get('host', "127.0.0.1"))`. -/
def resolve_host (env : String → Option String)
    (uvicorn_args : List (String × PyVal)) : PyVal :=
  os_getenv_d env "HOST" (dict_get uvicorn_args "host" (.vstr "127.0.0.1"))

/-- Model of `uvicorn_args['port'] = int(os.getenv("PORT",
uvicorn_args.get('port', 8000)))`; `none` models the fatal `int()`
failure. -/
def resolve_port (env : String → Option String)
    (uvicorn_args : List (String × PyVal)) : Option Int :=
  py_int (os_getenv_d env "PORT" (dict_get uvicorn_args "port" (.vint 8000)))

@[simp] theorem get_base_type_lit (v : LitVal) (vs : List LitVal) :
    get_base_type (.lit v vs) = some (.plain v.ty) := rfl

@[simp] theorem get_base_type_seq (t : TypeExpr) :
    get_base_type (.seq t) = get_base_type t := rfl

@[simp] theorem get_base_type_plain (s : Scalar) :
    get_base_type (.plain s) = some (.plain s) := rfl

@[simp] theorem get_base_type_union (args : List TypeExpr) :
    get_base_type (.union args) = get_base_type_first_non_optional args :=
  rfl

/-- Bridge to the literal Python shape of the `Union` branch: recursing
into the head of `[arg for arg in args if arg is not type(None)]` when
that list is nonempty, returning `None` when it is empty. -/
theorem get_base_type_union_filter (args : List TypeExpr) :
    get_base_type (.union args) =
      match args.filter is_not_none_type with
      | [] => none
      | a :: _ => get_base_type a := by
  rw [get_base_type_union]
  induction args with
  | nil => rfl
  | cons a rest ih =>
      by_cases h : is_not_none_type a = true
      · simp [get_base_type_first_non_optional, List.filter, h]
      · simp only [Bool.not_eq_true] at h
        simp [get_base_type_first_non_optional, List.filter, h, ih]

@[simp] theorem contains_list_type_seq (t : TypeExpr) :
    contains_list_type (.seq t) = true := rfl

@[simp] theorem contains_list_type_plain (s : Scalar) :
    contains_list_type (.plain s) = false := rfl

@[simp] theorem contains_list_type_lit (v : LitVal) (vs : List LitVal) :
    contains_list_type (.lit v vs) = false := by
  simp [contains_list_type, contains_list_type_of_lit_val]

theorem any_contains_list_type_eq_any (args : List TypeExpr) :
    any_contains_list_type args = args.any contains_list_type := by
  induction args with
  | nil => rfl
  | cons a rest ih => simp [any_contains_list_type, ih]

@[simp] theorem contains_list_type_union (args : List TypeExpr) :
    contains_list_type (.union args) = args.any contains_list_type := by
  simp [contains_list_type, any_contains_list_type_eq_any]

theorem get_base_type_first_non_optional_all_none
    (args : List TypeExpr) (h : ∀ a ∈ args, a = .plain .noneType) :
    get_base_type_first_non_optional args = none := by
  induction args with
  | nil => rfl
  | cons a rest ih =>
      have ha := h a (List.mem_cons_self a rest)
      subst ha
      simpa [get_base_type_first_non_optional, is_not_none_type] using
        ih fun b hb => h b (List.mem_cons_of_mem _ hb)

/-- Claim C1: `get_base_type` unwraps wrappers recursively and is
idempotent under re-wrapping: resolving a
sequence-of-optional-of-literal-enumeration equals resolving the
literal's underlying type (the type of its first literal value)
directly; a sequence wrapper recurses into its inner type; a plain type
is returned unchanged. -/
theorem get_base_type_unwraps_rewrapping :
    (∀ (v : LitVal) (vs : List LitVal),
        get_base_type (.seq (.union [.lit v vs, .plain .noneType]))
          = get_base_type (.plain v.ty)
        ∧ get_base_type (.seq (.union [.lit v vs, .plain .noneType]))
          = some (.plain v.ty))
    ∧ (∀ t : TypeExpr, get_base_type (.seq t) = get_base_type t)
    ∧ (∀ s : Scalar, get_base_type (.plain s) = some (.plain s)) :=
  ⟨fun _ _ => ⟨rfl, rfl⟩, fun _ => rfl, fun _ => rfl⟩

/-- Claim C2: `contains_list_type` is true on a sequence wrapper without
inspecting the inner type, is an any-disjunction over the alternatives
of a union, is false on literal enumerations (no literal value is a
sequence wrapper) and on plain types; in particular sequence-of-plain,
optional-of-sequence, and sequence-of-sequence are true and a plain
type is false. -/
theorem contains_list_type_cases :
    (∀ t : TypeExpr, contains_list_type (.seq t) = true)
    ∧ (∀ args : List TypeExpr,
        contains_list_type (.union args) = args.any contains_list_type)
    ∧ (∀ (v : LitVal) (vs : List LitVal),
        contains_list_type (.lit v vs) = false)
    ∧ (∀ s : Scalar, contains_list_type (.plain s) = false)
    ∧ (∀ s : Scalar, contains_list_type (.seq (.plain s)) = true)
    ∧ (∀ t : TypeExpr,
        contains_list_type (.union [.seq t, .plain .noneType]) = true)
    ∧ (∀ t : TypeExpr, contains_list_type (.seq (.seq t)) = true) := by
  refine ⟨fun t => rfl, contains_list_type_union, fun v vs => ?_,
    fun s => rfl, fun s => rfl, fun t => ?_, fun t => rfl⟩
  · simp
  · simp

/-- Claim C3: after decoding bytes and normalizing with
`lower()`/`strip()`, `parse_bool_arg` returns true exactly on the
truthy vocabulary, false exactly on the falsy vocabulary, and on any
other normalized value fails carrying the (decoded) input; in
particular `"  TRUE "` parses true, `"No"` parses false, and `"maybe"`
fails. -/
theorem parse_bool_arg_vocabulary :
    (∀ arg : BoolArg,
      (parse_bool_arg arg = .ok true
        ↔ py_strip (py_lower arg.text) ∈ true_values)
      ∧ (parse_bool_arg arg = .ok false
        ↔ py_strip (py_lower arg.text) ∈ false_values)
      ∧ (py_strip (py_lower arg.text) ∉ true_values →
          py_strip (py_lower arg.text) ∉ false_values →
          parse_bool_arg arg = .invalid arg.text))
    ∧ parse_bool_arg (.ofStr "  TRUE ") = .ok true
    ∧ parse_bool_arg (.ofStr "No") = .ok false
    ∧ parse_bool_arg (.ofStr "maybe") = .invalid "maybe" := by
  refine ⟨fun arg => ?_, by decide, by decide, by decide⟩
  by_cases h1 : py_strip (py_lower arg.text) ∈ true_values
  · have h2 : py_strip (py_lower arg.text) ∉ false_values := by
      simp only [true_values, List.mem_cons, List.not_mem_nil,
        or_false] at h1
      rcases h1 with h | h | h | h | h | h <;> rw [h] <;> decide
    exact ⟨by simp [parse_bool_arg, h1],
      by simp [parse_bool_arg, h1, h2], fun ht _ => absurd h1 ht⟩
  · by_cases h2 : py_strip (py_lower arg.text) ∈ false_values
    · exact ⟨by simp [parse_bool_arg, h1, h2],
        by simp [parse_bool_arg, h1, h2], fun _ hf => absurd h2 hf⟩
    · exact ⟨by simp [parse_bool_arg, h1, h2],
        by simp [parse_bool_arg, h1, h2],
        fun _ _ => by simp [parse_bool_arg, h1, h2]⟩

/-- Witness for `parse_bool_arg_vocabulary`: the failure branch applied
at the concrete unparseable token `"maybe"`. -/
theorem parse_bool_arg_vocabulary_witness :
    parse_bool_arg (.ofStr "xyz") = .invalid "xyz" :=
  (parse_bool_arg_vocabulary.1 (.ofStr "xyz")).2.2 (by decide) (by decide)

/-- Claim C4 counterexample: on the degenerate all-absent union the
code falls off the `if`/`elif` chain and returns Python `None`
(`Option.none`), not the textual scalar type `str`. -/
theorem degenerate_union_counterexample :
    get_base_type (.union [.plain .noneType]) = none
    ∧ get_base_type (.union [.plain .noneType]) ≠ some (.plain .str) :=
  ⟨rfl, fun h => Option.noConfusion h⟩

/-- Claim C4 amended: resolution is total (the model is a total
function and the code raises nothing), but a union whose alternatives
are all the absent marker resolves to Python `None`, not to a textual
scalar; the textual `str` fallback applies at the use site exactly when
the field carries no annotation at all. -/
theorem degenerate_union_returns_none :
    (∀ args : List TypeExpr, (∀ a ∈ args, a = .plain .noneType) →
        get_base_type (.union args) = none)
    ∧ field_base_type ⟨none, none, none⟩ = some (.plain .str) :=
  ⟨fun args h => get_base_type_first_non_optional_all_none args h, rfl⟩

/-- Witness for `degenerate_union_returns_none` at the singleton
all-absent union. -/
theorem degenerate_union_returns_none_witness :
    get_base_type (.union [.plain .noneType]) = none :=
  degenerate_union_returns_none.1 [.plain .noneType]
    fun _ ha => List.mem_singleton.1 ha

/-- Claim C5: a field whose resolved base type is `bool` is parsed by
the boolean coercer and takes exactly one token (argparse `nargs`
unset) regardless of the sequence-ness of the declared type; any other
field uses its base type as the value transform, with zero-or-more
tokens (`nargs="*"`) exactly when sequence-ness holds and exactly one
token otherwise. -/
theorem compile_field_modes (name : String) (f : FieldInfo) :
    (is_bool_base (field_base_type f) = true →
      (compile_field name f).transform = .boolCoercer
      ∧ (compile_field name f).nargs = none)
    ∧ (is_bool_base (field_base_type f) = false →
      (compile_field name f).transform = .pyType (field_base_type f)
      ∧ (compile_field name f).nargs
          = if contains_list_type_opt f.annotation then some "*"
            else none) := by
  constructor
  · intro h
    constructor <;> simp [compile_field, h]
  · intro h
    constructor <;> simp [compile_field, h]

/-- Witness for `compile_field_modes`: a list-of-bool field still takes
one boolean token, and a list-of-str field takes zero-or-more string
tokens. -/
theorem compile_field_modes_witness :
    ((compile_field "verbose"
        ⟨some (.seq (.plain .bool)), none, none⟩).transform
          = ArgTransform.boolCoercer
      ∧ (compile_field "verbose"
        ⟨some (.seq (.plain .bool)), none, none⟩).nargs = none)
    ∧ ((compile_field "tags"
        ⟨some (.seq (.plain .str)), none, none⟩).transform
          = ArgTransform.pyType (some (.plain .str))
      ∧ (compile_field "tags"
        ⟨some (.seq (.plain .str)), none, none⟩).nargs = some "*") :=
  ⟨(compile_field_modes "verbose"
      ⟨some (.seq (.plain .bool)), none, none⟩).1 rfl,
   (compile_field_modes "tags"
      ⟨some (.seq (.plain .str)), none, none⟩).2 rfl⟩

/-- Claim C6: splitting `vars(args)` drops every key whose value is
`None`; a surviving key with the `uvicorn_` dest lead-in (argparse
rewrites the flag's `-` to `_`) goes, stripped of those 8 characters,
only into the uvicorn mapping, and every other surviving key goes only
into the settings overrides; the claim's example parsed set splits into
overrides `model=/path` and uvicorn `reload=true` with the unset
`port` dropped. -/
theorem vars_args_split :
    (∀ (argvars : List (String × Option PyVal)) (k : String) (v : PyVal),
      ((k, v) ∈ settings_overrides argvars →
        (k, some v) ∈ argvars ∧ py_startswith k "uvicorn_" = false)
      ∧ ((k, some v) ∈ argvars → py_startswith k "uvicorn_" = false →
        (k, v) ∈ settings_overrides argvars)
      ∧ ((k, v) ∈ uvicorn_args_of argvars →
        ∃ k0, (k0, some v) ∈ argvars
          ∧ py_startswith k0 "uvicorn_" = true ∧ k = py_drop k0 8)
      ∧ ((k, some v) ∈ argvars → py_startswith k "uvicorn_" = true →
        (py_drop k 8, v) ∈ uvicorn_args_of argvars))
    ∧ settings_overrides
        [("port", none), ("uvicorn_reload", some (.vstr "true")),
          ("model", some (.vstr "/path"))]
        = [("model", .vstr "/path")]
    ∧ uvicorn_args_of
        [("port", none), ("uvicorn_reload", some (.vstr "true")),
          ("model", some (.vstr "/path"))]
        = [("reload", .vstr "true")] := by
  refine ⟨fun argvars k v => ⟨?_, ?_, ?_, ?_⟩, by decide, by decide⟩
  · intro h
    obtain ⟨⟨k0, v0⟩, hmem, hf⟩ := List.mem_filterMap.1 h
    cases v0 with
    | none => simp at hf
    | some w =>
        by_cases hs : py_startswith k0 "uvicorn_" = true
        · simp [settings_overrides, hs] at hf
        · simp only [Bool.not_eq_true] at hs
          simp only [hs, Bool.false_eq_true, if_false,
            Option.some.injEq, Prod.mk.injEq] at hf
          obtain ⟨hk, hv⟩ := hf
          subst hk; subst hv
          exact ⟨hmem, hs⟩
  · intro hmem hs
    exact List.mem_filterMap.2 ⟨(k, some v), hmem, by simp [hs]⟩
  · intro h
    obtain ⟨⟨k0, v0⟩, hmem, hf⟩ := List.mem_filterMap.1 h
    cases v0 with
    | none => simp at hf
    | some w =>
        by_cases hs : py_startswith k0 "uvicorn_" = true
        · simp only [hs, if_true, Option.some.injEq,
            Prod.mk.injEq] at hf
          obtain ⟨hk, hv⟩ := hf
          subst hv
          exact ⟨k0, hmem, hs, hk.symm⟩
        · simp only [Bool.not_eq_true] at hs
          simp [hs] at hf
  · intro hmem hs
    exact List.mem_filterMap.2 ⟨(k, some v), hmem, by simp [hs]⟩

/-- Witness for `vars_args_split`: the claim's example key `model`
survives into the settings overrides and the prefixed key
`uvicorn_reload` lands, stripped, in the uvicorn mapping. -/
theorem vars_args_split_witness :
    ("model", PyVal.vstr "/path") ∈ settings_overrides
        [("port", none), ("uvicorn_reload", some (.vstr "true")),
          ("model", some (.vstr "/path"))]
    ∧ ("reload", PyVal.vstr "true") ∈ uvicorn_args_of
        [("port", none), ("uvicorn_reload", some (.vstr "true")),
          ("model", some (.vstr "/path"))] :=
  ⟨(vars_args_split.1 _ "model" (.vstr "/path")).2.1 (by decide)
      (by decide),
   (vars_args_split.1 _ "uvicorn_reload" (.vstr "true")).2.2.2 (by decide)
      (by decide)⟩

/-- Claim C7: the final launch host is the HOST environment variable
when set, else the partitioned value when present, else the fixed
default "127.0.0.1"; the final launch port follows the same precedence
with PORT and default 8000 and is always passed through `int(...)`
before being returned; with PORT=9090 set and no partitioned port, the
final port is the integer 9090, not 8000. -/
theorem host_port_resolution :
    (∀ (env : String → Option String) (uv : List (String × PyVal))
        (v : String), env "HOST" = some v →
        resolve_host env uv = .vstr v)
    ∧ (∀ (env : String → Option String) (uv : List (String × PyVal))
        (v : PyVal), env "HOST" = none → uv.lookup "host" = some v →
        resolve_host env uv = v)
    ∧ (∀ (env : String → Option String) (uv : List (String × PyVal)),
        env "HOST" = none → uv.lookup "host" = none →
        resolve_host env uv = .vstr "127.0.0.1")
    ∧ (∀ (env : String → Option String) (uv : List (String × PyVal))
        (v : String), env "PORT" = some v →
        resolve_port env uv = py_int (.vstr v))
    ∧ (∀ (env : String → Option String) (uv : List (String × PyVal))
        (v : PyVal), env "PORT" = none → uv.lookup "port" = some v →
        resolve_port env uv = py_int v)
    ∧ (∀ (env : String → Option String) (uv : List (String × PyVal)),
        env "PORT" = none → uv.lookup "port" = none →
        resolve_port env uv = some 8000)
    ∧ (∀ (env : String → Option String) (uv : List (String × PyVal)),
        env "PORT" = some "9090" → uv.lookup "port" = none →
        resolve_port env uv = some 9090
        ∧ resolve_port env uv ≠ some 8000) := by
  refine ⟨?_, ?_, ?_, ?_, ?_, ?_, ?_⟩
  · intro env uv v h
    simp [resolve_host, os_getenv_d, h]
  · intro env uv v h hl
    simp [resolve_host, os_getenv_d, dict_get, h, hl]
  · intro env uv h hl
    simp [resolve_host, os_getenv_d, dict_get, h, hl]
  · intro env uv v h
    simp [resolve_port, os_getenv_d, h]
  · intro env uv v h hl
    simp [resolve_port, os_getenv_d, dict_get, h, hl]
  · intro env uv h hl
    simp [resolve_port, os_getenv_d, dict_get, h, hl]
    decide
  · intro env uv h hl
    constructor
    · simp [resolve_port, os_getenv_d, dict_get, h, hl]
      decide
    · simp [resolve_port, os_getenv_d, dict_get, h, hl]
      decide

/-- Witness for `host_port_resolution`: with PORT=9090 in the
environment and an empty uvicorn mapping the final port is 9090. -/
theorem host_port_resolution_witness :
    resolve_port (fun n => if n = "PORT" then some "9090" else none) []
        = some 9090
    ∧ resolve_port (fun n => if n = "PORT" then some "9090" else none) []
        ≠ some 8000 :=
  (host_port_resolution.2.2.2.2.2.2
    (fun n => if n = "PORT" then some "9090" else none) []
    (by decide) rfl)

/-- Claim C8 counterexample: with the HOST environment variable set to
"envhost" and a CLI-supplied host "clihost" present in the partitioned
values, the final host is "envhost" — the CLI value does not win, so
the claimed CLI-first order is false. -/
theorem host_cli_first_counterexample :
    resolve_host (fun n => if n = "HOST" then some "envhost" else none)
        [("host", .vstr "clihost")] = .vstr "envhost"
    ∧ resolve_host (fun n => if n = "HOST" then some "envhost" else none)
        [("host", .vstr "clihost")] ≠ .vstr "clihost" := by
  constructor <;> decide

/-- Claim C8 amended: for host and port the value sources are evaluated
first-match-wins in the order environment variable, then CLI value,
then static default — whenever both a CLI-supplied value and the
corresponding environment variable are present, the environment
variable's value is the one used. -/
theorem host_port_env_first :
    (∀ (env : String → Option String) (uv : List (String × PyVal))
        (e : String), env "HOST" = some e →
        resolve_host env uv = .vstr e)
    ∧ (∀ (env : String → Option String) (uv : List (String × PyVal))
        (e : String), env "PORT" = some e →
        resolve_port env uv = py_int (.vstr e)) := by
  constructor
  · intro env uv e h
    simp [resolve_host, os_getenv_d, h]
  · intro env uv e h
    simp [resolve_port, os_getenv_d, h]

/-- Witness for `host_port_env_first`: the environment host wins over a
present CLI host. -/
theorem host_port_env_first_witness :
    resolve_host (fun n => if n = "HOST" then some "envhost" else none)
        [("host", PyVal.vstr "clihost")] = PyVal.vstr "envhost" :=
  host_port_env_first.1 _ [("host", PyVal.vstr "clihost")] "envhost"
    (by decide)

/-- Claim C9: every `uvicorn.run` parameter except the excluded
implicit target "app" yields one specification whose flag is the token
"uvicorn-" prepended to the parameter's own name (after the standard
"--" option lead-in); the declared parameter type is used directly with
no recursive resolution, an unannotated parameter defaults to `str`,
and a parameter without a default is surfaced with default `None`. -/
theorem compile_launch_params_spec :
    (∀ p : LaunchParam,
      (compile_launch_param p).flag = "--uvicorn-" ++ p.name
      ∧ (compile_launch_param p).flag = "--" ++ ("uvicorn-" ++ p.name)
      ∧ (compile_launch_param p).pytype = launch_param_type p
      ∧ (∀ t, p.annotation = some t → (compile_launch_param p).pytype = t)
      ∧ (p.annotation = none →
          (compile_launch_param p).pytype = .plain .str)
      ∧ (p.default = none → (compile_launch_param p).default = .vnone))
    ∧ (∀ ps : List LaunchParam,
        compile_launch_params ps
          = (ps.filter fun p => p.name != "app").map
              compile_launch_param) := by
  constructor
  · intro p
    refine ⟨rfl, ?_, rfl, ?_, ?_, ?_⟩
    · show "--uvicorn-" ++ p.name = "--" ++ ("uvicorn-" ++ p.name)
      rw [← String.append_assoc]
      congr 1
    · intro t ht
      simp [compile_launch_param, launch_param_type, ht]
    · intro ht
      simp [compile_launch_param, launch_param_type, ht]
    · intro hd
      simp [compile_launch_param, launch_param_default, hd]
  · intro ps
    induction ps with
    | nil => rfl
    | cons p rest ih =>
        by_cases h : p.name = "app"
        · have h2 : (p.name != "app") = false := by simp [h]
          simp only [compile_launch_params, List.filterMap_cons,
            if_pos h, List.filter_cons, h2, Bool.false_eq_true,
            if_false]
          exact ih
        · have h2 : (p.name != "app") = true := by simp [h]
          simp only [compile_launch_params, List.filterMap_cons,
            if_neg h, List.filter_cons, h2, if_true, List.map_cons]
          exact congrArg (fun l => compile_launch_param p :: l) ih

/-- Witness for `compile_launch_params_spec`: an unannotated,
default-less parameter surfaces as a `str`-typed flag with default
`None`. -/
theorem compile_launch_params_spec_witness :
    (compile_launch_param ⟨"reload", none, none⟩).pytype
        = TypeExpr.plain .str
    ∧ (compile_launch_param ⟨"reload", none, none⟩).default
        = PyVal.vnone :=
  ⟨(compile_launch_params_spec.1 ⟨"reload", none, none⟩).2.2.2.2.1 rfl,
   (compile_launch_params_spec.1 ⟨"reload", none, none⟩).2.2.2.2.2 rfl⟩

/-- Claim C10: for a union whose first non-absent alternative is a
plain scalar and a later alternative is a sequence wrapper, the base
type comes from the first non-absent alternative while sequence-ness is
true, so the compiled flag accepts zero-or-more tokens each coerced
with the first alternative's scalar type rather than the sequence
alternative's element type. -/
theorem union_scalar_then_list :
    (∀ (s : Scalar) (rest : List TypeExpr) (t : TypeExpr),
      s ≠ .noneType → TypeExpr.seq t ∈ rest →
        get_base_type (.union (.plain s :: rest)) = some (.plain s)
        ∧ contains_list_type (.union (.plain s :: rest)) = true)
    ∧ (∀ (name : String) (dflt : Option PyVal) (desc : Option String),
        (compile_field name
          ⟨some (.union [.plain .int, .seq (.plain .str)]), dflt,
            desc⟩).transform = .pyType (some (.plain .int))
        ∧ (compile_field name
          ⟨some (.union [.plain .int, .seq (.plain .str)]), dflt,
            desc⟩).nargs = some "*") := by
  constructor
  · intro s rest t hs hmem
    constructor
    · have hn : is_not_none_type (.plain s) = true := by
        cases s <;> simp_all [is_not_none_type]
      simp [get_base_type_first_non_optional, hn]
    · simp only [contains_list_type_union, List.any_cons,
        contains_list_type_plain, Bool.false_or, List.any_eq_true]
      exact ⟨.seq t, hmem, rfl⟩
  · intro name dflt desc
    exact ⟨rfl, rfl⟩

/-- Witness for `union_scalar_then_list`: the union of `int` and
`list[str]` resolves to base type `int` with sequence-ness true. -/
theorem union_scalar_then_list_witness :
    get_base_type (.union [.plain .int, .seq (.plain .str)])
        = some (.plain .int)
    ∧ contains_list_type (.union [.plain .int, .seq (.plain .str)])
        = true :=
  union_scalar_then_list.1 .int [.seq (.plain .str)] (.plain .str)
    (by decide) (List.mem_singleton.2 rfl)
